import Mathlib

/-
Verification development for the DiscoverX scan engine (discoverx/dx.py).

The Python module drives a rule-matching scan over a lakehouse: it
enumerates tables, compiles one rule-matching SQL query per table
(through an external SqlBuilder collaborator), executes the query
through an external Spark engine, concatenates the per-table pandas
frames into one scan result, and summarises the result by applying a
classification threshold to the per-(column, rule) match frequencies.

The shallow embedding below models:
  - a scan-result row (one row per (column, rule) pair) with its match
    frequency as a rational number;
  - a pandas frame as either the schemaless empty frame produced by
    pd.DataFrame() (whose column access raises KeyError) or a frame
    holding scan rows;
  - the external collaborators (SqlBuilder.rule_matching_sql and
    spark.sql(...).toPandas()) as an environment of fallible functions;
  - the per-table loop of DX._execute_scan, including the log events it
    emits, the queries it submits to the engine, and the frames it
    accumulates (a table whose compile or execute raises is logged and
    skipped);
  - DX._display_scan_summary, DX._validate_classification_threshold,
    DX.__init__, DX.scan and DX.msql.
-/

namespace DiscoverX

/-- Identity fields of discoverx.config.TableInfo as used by dx.py
(catalog, database and table name; dx.py reads no other field). -/
structure TableInfo where
  catalog : String
  database : String
  table : String
deriving DecidableEq, Repr

/-- A rule from discoverx.rules as dx.py sees it: dx.py only passes
rules through to the SqlBuilder collaborator, so only the name is
modelled. -/
structure Rule where
  name : String
deriving DecidableEq, Repr

/-- One row of the scan result: the frame returned for a table by
spark.sql(rule_matching_sql(...)).toPandas() has one row per
(column, rule) pair with columns catalog, database, table, column,
rule_name, frequency. The float frequency is modelled as a rational. -/
structure ScanRow where
  catalog : String
  database : String
  table : String
  column : String
  rule_name : String
  frequency : ℚ
deriving DecidableEq, Repr

/-- A pandas DataFrame as dx.py distinguishes them: Frame.empty is the
schemaless pd.DataFrame() returned by _execute_scan when no table
produced a frame (accessing a column of it raises KeyError), and
Frame.scanFrame holds the concatenated scan rows (possibly zero rows,
but with the scan schema present). -/
inductive Frame where
  | empty : Frame
  | scanFrame (rows : List ScanRow) : Frame
deriving DecidableEq, Repr

/-- Python exceptions raised by the modelled code paths. -/
inductive PyError where
  | keyError (key : String) : PyError
  | attributeError (attr : String) : PyError
  | valueError (msg : String) : PyError
  | nameError (name : String) : PyError
deriving DecidableEq, Repr

/-- Observable logger calls made by dx.py, modelled structurally.
progress is the per-table friendly message carrying the table identity
and the (index + 1, total) pair; queryText is the friendly echo of the
compiled SQL in what_if mode; scanError is the logger.error call in the
except branch; msqlGuidance is the friendly hint printed by msql when
scan_result is falsy; debugMsql is the debug echo of the msql template. -/
inductive LogEvent where
  | progress (what_if : Bool) (t : TableInfo) (index : Nat) (total : Nat) : LogEvent
  | queryText (sql : String) : LogEvent
  | scanError (t : TableInfo) (e : PyError) : LogEvent
  | msqlGuidance : LogEvent
  | debugMsql (template : String) : LogEvent
deriving DecidableEq, Repr

/-- The external collaborators of _execute_scan: compile is
self.sql_builder.rule_matching_sql(table, rule_list, sample_size) and
run is spark.sql(sql).toPandas(); either may raise. -/
structure ScanEnv where
  compile : TableInfo → List Rule → Option Nat → Except PyError String
  run : String → Except PyError (List ScanRow)

/-- Result of one iteration of the _execute_scan loop body: the log
events emitted, the queries submitted to the engine, and the frame
appended to dfs (none when the iteration appended nothing). -/
structure StepOut where
  logs : List LogEvent
  submitted : List String
  frame : Option (List ScanRow)
deriving DecidableEq, Repr

/-- One iteration of the loop body of DX._execute_scan for table t at
zero-based position i out of n: the friendly progress message, then a
try block that compiles the rule-matching SQL and either echoes it
(what_if) or submits it to the engine and appends the resulting frame;
any exception is logged and the table is skipped. -/
def scanStep (env : ScanEnv) (rule_list : List Rule) (sample_size : Option Nat)
    (what_if : Bool) (n : Nat) (i : Nat) (t : TableInfo) : StepOut :=
  let header := LogEvent.progress what_if t (i + 1) n
  match env.compile t rule_list sample_size with
  | .error e => ⟨[header, .scanError t e], [], none⟩
  | .ok sql =>
    if what_if then
      ⟨[header, .queryText sql], [], none⟩
    else
      match env.run sql with
      | .error e => ⟨[header, .scanError t e], [sql], none⟩
      | .ok rows => ⟨[header], [sql], some rows⟩

/-- Accumulated observable state of the _execute_scan loop. -/
structure ScanAcc where
  logs : List LogEvent
  submitted : List String
  frames : List (List ScanRow)
deriving DecidableEq, Repr

/-- The for loop of DX._execute_scan, iterating from position i over
the remaining tables and accumulating logs, submitted queries and the
dfs list of per-table frames. -/
def scanLoop (env : ScanEnv) (rule_list : List Rule) (sample_size : Option Nat)
    (what_if : Bool) (n : Nat) : Nat → List TableInfo → ScanAcc
  | _, [] => ⟨[], [], []⟩
  | i, t :: rest =>
    let s := scanStep env rule_list sample_size what_if n i t
    let acc := scanLoop env rule_list sample_size what_if n (i + 1) rest
    ⟨s.logs ++ acc.logs, s.submitted ++ acc.submitted,
      match s.frame with
      | none => acc.frames
      | some rows => rows :: acc.frames⟩

/-- DX._execute_scan: runs the per-table loop and returns
pd.concat(dfs) when dfs is non-empty, otherwise the schemaless
pd.DataFrame(). -/
def execute_scan (env : ScanEnv) (table_list : List TableInfo) (rule_list : List Rule)
    (sample_size : Option Nat) (what_if : Bool) : Frame :=
  let acc := scanLoop env rule_list sample_size what_if table_list.length 0 table_list
  match acc.frames with
  | [] => Frame.empty
  | dfs => Frame.scanFrame dfs.flatten

/-- The log events emitted by one call of DX._execute_scan. -/
def scanLogs (env : ScanEnv) (table_list : List TableInfo) (rule_list : List Rule)
    (sample_size : Option Nat) (what_if : Bool) : List LogEvent :=
  (scanLoop env rule_list sample_size what_if table_list.length 0 table_list).logs

/-- The queries one call of DX._execute_scan submits to the execution
engine (the arguments of the spark.sql calls it makes). -/
def submittedQueries (env : ScanEnv) (table_list : List TableInfo) (rule_list : List Rule)
    (sample_size : Option Nat) (what_if : Bool) : List String :=
  (scanLoop env rule_list sample_size what_if table_list.length 0 table_list).submitted

/-- The net contribution of one table to the dfs list of
_execute_scan: the frame returned by the engine when compile and run
both succeed and the call is not a dry run, nothing otherwise. -/
def tableFrame (env : ScanEnv) (rule_list : List Rule) (sample_size : Option Nat)
    (what_if : Bool) (t : TableInfo) : Option (List ScanRow) :=
  (scanStep env rule_list sample_size what_if 0 0 t).frame

/-- The column identity used by _display_scan_summary: the projection
of a scan row onto its catalog, database, table, column columns. -/
def colId (r : ScanRow) : String × String × String × String :=
  (r.catalog, r.database, r.table, r.column)

/-- The classified_cols frame of _display_scan_summary and msql: the
rows of the scan result whose frequency strictly exceeds the
classification threshold. -/
def classifiedCols (df : List ScanRow) (threshold : ℚ) : List ScanRow :=
  df.filter (fun r => decide (r.frequency > threshold))

/-- Number of distinct (catalog, database, table, column) tuples of a
frame, as computed by
len(df[[catalog, database, table, column]].drop_duplicates()). -/
def distinctColCount (df : List ScanRow) : Nat :=
  ((df.map colId).dedup).length

/-- The per-rule row count computed by
classified_cols.groupby([rule_name]).agg(frequency count): the number
of classified rows carrying the given rule name (frequency is never
null in a scan frame, so count counts every row of the group). -/
def perRuleCount (df : List ScanRow) (threshold : ℚ) (rule_name : String) : Nat :=
  ((classifiedCols df threshold).filter (fun r => decide (r.rule_name = rule_name))).length

/-- The (rule name, row count) pairs produced by the groupby in
_display_scan_summary, one per distinct rule name among the classified
rows. pandas lists group keys in sorted order; no claim depends on the
order, so first-occurrence order is used here. -/
def ruleCountList (df : List ScanRow) (threshold : ℚ) : List (String × Nat) :=
  (((classifiedCols df threshold).map (fun r => r.rule_name)).dedup).map
    (fun rn => (rn, perRuleCount df threshold rn))

/-- The numbers _display_scan_summary reports: scanned distinct column
count, classified distinct column count, and the per-rule counts. -/
structure ScanSummary where
  n_scanned : Nat
  n_classified : Nat
  rule_counts : List (String × Nat)
deriving DecidableEq, Repr

/-- The summary computation of _display_scan_summary on a frame that
carries the scan schema. -/
def summarize (df : List ScanRow) (threshold : ℚ) : ScanSummary :=
  { n_scanned := distinctColCount df
    n_classified := distinctColCount (classifiedCols df threshold)
    rule_counts := ruleCountList df threshold }

/-- DX._display_scan_summary: its first statement evaluates
df[df[frequency] > threshold]; on the schemaless pd.DataFrame()
returned by _execute_scan when no table produced a frame, selecting the
frequency column raises KeyError. Otherwise the summary is computed. -/
def display_scan_summary (f : Frame) (threshold : ℚ) : Except PyError ScanSummary :=
  match f with
  | .empty => .error (.keyError "frequency")
  | .scanFrame df => .ok (summarize df threshold)

/-- DX._validate_classification_threshold: raises ValueError when the
threshold is outside the closed interval from 0 to 1, and returns the
threshold unchanged otherwise. -/
def validate_classification_threshold (threshold : ℚ) : Except PyError ℚ :=
  if threshold < 0 ∨ threshold > 1 then
    .error (.valueError
      ("column_type_classification_threshold has to be in interval [0,1]. Given value is "
        ++ toString threshold))
  else
    .ok threshold

/-- The attributes of a DX object the claims observe: the stored
classification threshold, and the scan_result attribute, which
DX.__init__ leaves unset (none) and only DX.scan assigns. -/
structure DXState where
  column_type_classification_threshold : ℚ
  scan_result : Option Frame
deriving DecidableEq, Repr

/-- DX.__init__ with a given column_type_classification_threshold: the
threshold is validated before anything is scanned, and the validated
value is stored; the scan_result attribute is not assigned. -/
def DX.init (threshold : ℚ) : Except PyError DXState :=
  match validate_classification_threshold threshold with
  | .error e => .error e
  | .ok t => .ok { column_type_classification_threshold := t, scan_result := none }

/-- DX.scan after table and rule enumeration: runs _execute_scan,
assigns the result to scan_result, then calls _display_scan_summary
(which may raise). The returned pair is the updated state and the
displayed summary. -/
def DX.scan (st : DXState) (env : ScanEnv) (table_list : List TableInfo)
    (rule_list : List Rule) (sample_size : Option Nat) (what_if : Bool) :
    Except PyError (DXState × ScanSummary) :=
  let result := execute_scan env table_list rule_list sample_size what_if
  let st' := { st with scan_result := some result }
  match display_scan_summary result st'.column_type_classification_threshold with
  | .error e => .error e
  | .ok s => .ok (st', s)

/-- The scan() pipeline observed for claims about its outcome: the
frame produced by _execute_scan and the summary _display_scan_summary
computes from it, or the exception the summary raises. -/
def scan_model (env : ScanEnv) (table_list : List TableInfo) (rule_list : List Rule)
    (sample_size : Option Nat) (what_if : Bool) (threshold : ℚ) :
    Except PyError (Frame × ScanSummary) :=
  let result := execute_scan env table_list rule_list sample_size what_if
  match display_scan_summary result threshold with
  | .error e => .error e
  | .ok s => .ok (result, s)

/-- Truthiness of a pandas DataFrame: bool(df) raises ValueError
unconditionally (pandas NDFrame defines no unambiguous truth value),
so the expression (not self.scan_result) in msql raises whenever
scan_result holds a DataFrame. -/
def dataFrameBool (f : Frame) : Except PyError Bool :=
  .error (.valueError "The truth value of a DataFrame is ambiguous")

/-- DX.msql: first evaluates (not self.scan_result). When scan() never
ran, the attribute access itself raises AttributeError. When
scan_result holds a frame, bool(frame) raises ValueError. Were the
guard ever to pass as falsy, the friendly guidance would be printed and
None returned; were it to pass as truthy, the template would be
debug-logged and the list comprehension over table_list would raise
NameError, because the assignment of table_list is commented out.
Returns the emitted log events with the outcome. -/
def msql_model (scan_result : Option Frame) (template : String) (what_if : Bool) :
    List LogEvent × Except PyError (Option Frame) :=
  match scan_result with
  | none => ([], .error (.attributeError "scan_result"))
  | some df =>
    match dataFrameBool df with
    | .error e => ([], .error e)
    | .ok b =>
      if !b then
        ([LogEvent.msqlGuidance], .ok none)
      else
        ([LogEvent.debugMsql template], .error (.nameError "table_list"))

/-- The classified column identities of a scan frame: the distinct
(catalog, database, table, column) tuples among the rows whose
frequency exceeds the threshold; n_classified is its length. -/
def classifiedColIds (df : List ScanRow) (threshold : ℚ) :
    List (String × String × String × String) :=
  ((classifiedCols df threshold).map colId).dedup

/-- The per-table frames of the tables whose compile and execute both
succeeded, in table order (the dfs list _execute_scan accumulates in a
non-dry run). -/
def successFrames (env : ScanEnv) (table_list : List TableInfo) (rule_list : List Rule)
    (sample_size : Option Nat) : List (List ScanRow) :=
  table_list.filterMap (tableFrame env rule_list sample_size false)

/-- The rows a frame holds (none for the schemaless empty frame). -/
def Frame.rows : Frame → List ScanRow
  | .empty => []
  | .scanFrame rows => rows

/-- Concrete fixture: a table whose scan succeeds. -/
def tblA : TableInfo := ⟨"cat", "db", "ta"⟩

/-- Concrete fixture: a table whose query compilation raises. -/
def tblB : TableInfo := ⟨"cat", "db", "tb"⟩

/-- Concrete fixture: a second table whose scan succeeds. -/
def tblC : TableInfo := ⟨"cat", "db", "tc"⟩

/-- Concrete fixture: the scan row the engine returns for tblA. -/
def rowA : ScanRow := ⟨"cat", "db", "ta", "ip", "ip_address", 1⟩

/-- Concrete fixture: the scan row the engine returns for tblC. -/
def rowC : ScanRow := ⟨"cat", "db", "tc", "mac", "mac_address", 0⟩

/-- Concrete fixture environment: compilation fails for tblB and
succeeds elsewhere (the compiled query is the table name); the engine
answers the queries of tblA and tblC and fails on anything else. -/
def envW : ScanEnv where
  compile := fun t _ _ =>
    if t.table = "tb" then .error (.valueError "bad rule sql") else .ok t.table
  run := fun sql =>
    if sql = "ta" then .ok [rowA]
    else if sql = "tc" then .ok [rowC]
    else .error (.valueError "engine failure")

/-- Concrete fixture: an environment extensionally equal to envW but
built as a different term. -/
def envW' : ScanEnv := ⟨fun t r s => envW.compile t r s, fun sql => envW.run sql⟩

section Lemmas

/-- Length of a deduplicated list is the cardinality of its finset of
elements. -/
theorem dedup_length_eq_card {α : Type} [DecidableEq α] (l : List α) :
    l.dedup.length = l.toFinset.card := by
  rw [Finset.card_def, List.toFinset_val, Multiset.coe_card]

/-- The frame component of a loop step does not depend on the position
counters: it is the net frame contribution of the table. -/
theorem scanStep_frame (env : ScanEnv) (r : List Rule) (sz : Option Nat) (wi : Bool)
    (n i : Nat) (t : TableInfo) :
    (scanStep env r sz wi n i t).frame = tableFrame env r sz wi t := by
  cases h : env.compile t r sz with
  | error e => simp [scanStep, tableFrame, h]
  | ok sql =>
    cases wi with
    | true => simp [scanStep, tableFrame, h]
    | false =>
      cases h2 : env.run sql with
      | error e => simp [scanStep, tableFrame, h, h2]
      | ok rows => simp [scanStep, tableFrame, h, h2]

/-- The dfs list accumulated by the _execute_scan loop is the
filterMap of the per-table frame contribution over the table list. -/
theorem scanLoop_frames (env : ScanEnv) (r : List Rule) (sz : Option Nat) (wi : Bool)
    (n : Nat) (ts : List TableInfo) (i : Nat) :
    (scanLoop env r sz wi n i ts).frames = ts.filterMap (tableFrame env r sz wi) := by
  induction ts generalizing i with
  | nil => rfl
  | cons t rest ih =>
    simp only [scanLoop, List.filterMap_cons, ← scanStep_frame env r sz wi n i t]
    cases h : (scanStep env r sz wi n i t).frame with
    | none => simpa [h] using ih (i + 1)
    | some rows => simpa [h] using ih (i + 1)

/-- The result of _execute_scan, characterised through the per-table
frame contributions: the concatenation of the frames of the tables
that produced one, or the schemaless empty frame when none did. -/
theorem execute_scan_eq_filterMap (env : ScanEnv) (ts : List TableInfo) (r : List Rule)
    (sz : Option Nat) (wi : Bool) :
    execute_scan env ts r sz wi =
      match ts.filterMap (tableFrame env r sz wi) with
      | [] => Frame.empty
      | dfs => Frame.scanFrame dfs.flatten := by
  simp only [execute_scan]
  rw [scanLoop_frames]

/-- A dry-run loop step submits no query. -/
theorem scanStep_submitted_dry (env : ScanEnv) (r : List Rule) (sz : Option Nat)
    (n i : Nat) (t : TableInfo) :
    (scanStep env r sz true n i t).submitted = [] := by
  cases h : env.compile t r sz with
  | error e => simp [scanStep, h]
  | ok sql => simp [scanStep, h]

/-- A dry-run loop step contributes no frame. -/
theorem scanStep_frame_dry (env : ScanEnv) (r : List Rule) (sz : Option Nat)
    (n i : Nat) (t : TableInfo) :
    (scanStep env r sz true n i t).frame = none := by
  cases h : env.compile t r sz with
  | error e => simp [scanStep, h]
  | ok sql => simp [scanStep, h]

/-- The dry-run loop submits no query at all. -/
theorem scanLoop_submitted_dry (env : ScanEnv) (r : List Rule) (sz : Option Nat)
    (n : Nat) (ts : List TableInfo) (i : Nat) :
    (scanLoop env r sz true n i ts).submitted = [] := by
  induction ts generalizing i with
  | nil => rfl
  | cons t rest ih =>
    simp only [scanLoop]
    rw [scanStep_submitted_dry]
    simpa using ih (i + 1)

/-- The dry-run loop accumulates no frame. -/
theorem scanLoop_frames_dry (env : ScanEnv) (r : List Rule) (sz : Option Nat)
    (n : Nat) (ts : List TableInfo) (i : Nat) :
    (scanLoop env r sz true n i ts).frames = [] := by
  induction ts generalizing i with
  | nil => rfl
  | cons t rest ih =>
    simp only [scanLoop]
    rw [scanStep_frame_dry]
    exact ih (i + 1)

/-- The progress header is the first log event a loop step emits. -/
theorem scanStep_progress_head (env : ScanEnv) (r : List Rule) (sz : Option Nat)
    (wi : Bool) (n i : Nat) (t : TableInfo) :
    LogEvent.progress wi t (i + 1) n ∈ (scanStep env r sz wi n i t).logs := by
  cases h : env.compile t r sz with
  | error e => simp [scanStep, h]
  | ok sql =>
    cases wi with
    | true => simp [scanStep, h]
    | false =>
      cases h2 : env.run sql with
      | error e => simp [scanStep, h, h2]
      | ok rows => simp [scanStep, h, h2]

/-- Every table at position j of the remaining list gets a progress
log event carrying its one-based index and the total. -/
theorem scanLoop_progress_mem (env : ScanEnv) (r : List Rule) (sz : Option Nat)
    (wi : Bool) (n : Nat) (ts : List TableInfo) (i j : Nat) (h : j < ts.length) :
    LogEvent.progress wi (ts.get ⟨j, h⟩) (i + j + 1) n ∈
      (scanLoop env r sz wi n i ts).logs := by
  induction ts generalizing i j with
  | nil => exact absurd h (Nat.not_lt_zero j)
  | cons t rest ih =>
    cases j with
    | zero =>
      simp only [scanLoop, List.get]
      exact List.mem_append_left _ (scanStep_progress_head env r sz wi n i t)
    | succ j' =>
      have h' : j' < rest.length := Nat.lt_of_succ_lt_succ h
      have hm := ih (i + 1) j' h'
      have harith : i + 1 + j' + 1 = i + (j' + 1) + 1 := by omega
      rw [harith] at hm
      simp only [scanLoop, List.get]
      exact List.mem_append_right _ hm

/-- In a dry run, every table whose compilation succeeds gets its
compiled query text echoed to the log. -/
theorem scanLoop_queryText_mem (env : ScanEnv) (r : List Rule) (sz : Option Nat)
    (n : Nat) (ts : List TableInfo) (i : Nat) (t : TableInfo) (sql : String)
    (ht : t ∈ ts) (hc : env.compile t r sz = .ok sql) :
    LogEvent.queryText sql ∈ (scanLoop env r sz true n i ts).logs := by
  induction ts generalizing i with
  | nil => exact absurd ht (List.not_mem_nil t)
  | cons t' rest ih =>
    rcases List.mem_cons.mp ht with rfl | hmem
    · have hstep : LogEvent.queryText sql ∈ (scanStep env r sz true n i t).logs := by
        simp [scanStep, hc]
      simp only [scanLoop]
      exact List.mem_append_left _ hstep
    · simp only [scanLoop]
      exact List.mem_append_right _ (ih (i + 1) hmem)

/-- Loop steps of two environments with extensionally equal compile
and run functions coincide. -/
theorem scanStep_congr (env₁ env₂ : ScanEnv) (r : List Rule) (sz : Option Nat)
    (wi : Bool) (n i : Nat) (t : TableInfo)
    (hc : env₁.compile t r sz = env₂.compile t r sz)
    (hr : ∀ sql, env₁.run sql = env₂.run sql) :
    scanStep env₁ r sz wi n i t = scanStep env₂ r sz wi n i t := by
  cases h : env₂.compile t r sz with
  | error e => simp [scanStep, hc.trans h, h]
  | ok sql =>
    cases wi with
    | true => simp [scanStep, hc.trans h, h]
    | false =>
      cases h2 : env₂.run sql with
      | error e => simp [scanStep, hc.trans h, h, (hr sql).trans h2, h2]
      | ok rows => simp [scanStep, hc.trans h, h, (hr sql).trans h2, h2]

/-- The whole loop of two environments with extensionally equal
compile and run functions coincides. -/
theorem scanLoop_congr (env₁ env₂ : ScanEnv) (r : List Rule) (sz : Option Nat)
    (wi : Bool) (n : Nat) (ts : List TableInfo) (i : Nat)
    (hc : ∀ t, env₁.compile t r sz = env₂.compile t r sz)
    (hr : ∀ sql, env₁.run sql = env₂.run sql) :
    scanLoop env₁ r sz wi n i ts = scanLoop env₂ r sz wi n i ts := by
  induction ts generalizing i with
  | nil => rfl
  | cons t rest ih =>
    simp only [scanLoop]
    rw [scanStep_congr env₁ env₂ r sz wi n i t (hc t) hr, ih (i + 1)]

/-- A list of pairs with constant second components and no duplicate
pairs has no duplicate first components. -/
theorem nodup_map_fst_of_const_snd {α β : Type} (l : List (α × β)) (b : β)
    (hconst : ∀ p ∈ l, p.2 = b) (h : l.Nodup) : (l.map Prod.fst).Nodup := by
  refine h.map_on ?_
  intro x hx y hy hfst
  exact Prod.ext hfst ((hconst x hx).trans ((hconst y hy).symm))

end Lemmas

/-- Claim C1: for every scan result and every valid threshold t between
0 and 1, a column is counted as classified exactly when it has at least
one row whose frequency strictly exceeds t; a column all of whose rows
have frequency at most t (in particular one whose maximum frequency
equals t exactly) is never classified; n_classified counts exactly the
classified column identities. -/
theorem classified_iff_some_row_exceeds_threshold (df : List ScanRow) (t : ℚ)
    (h0 : 0 ≤ t) (h1 : t ≤ 1) (c : String × String × String × String) :
    (c ∈ classifiedColIds df t ↔ ∃ r ∈ df, colId r = c ∧ r.frequency > t) ∧
    ((∀ r ∈ df, colId r = c → r.frequency ≤ t) → c ∉ classifiedColIds df t) ∧
    (summarize df t).n_classified = (classifiedColIds df t).length := by
  have hiff : c ∈ classifiedColIds df t ↔ ∃ r ∈ df, colId r = c ∧ r.frequency > t := by
    simp only [classifiedColIds, List.mem_dedup, List.mem_map, classifiedCols,
      List.mem_filter, decide_eq_true_eq, gt_iff_lt]
    constructor
    · rintro ⟨r, ⟨hr, hf⟩, hcol⟩
      exact ⟨r, hr, hcol, hf⟩
    · rintro ⟨r, hr, hcol, hf⟩
      exact ⟨r, ⟨hr, hf⟩, hcol⟩
  refine ⟨hiff, fun hle hc => ?_, rfl⟩
  obtain ⟨r, hr, hcol, hf⟩ := hiff.mp hc
  exact absurd hf (not_lt.mpr (hle r hr hcol))

/-- Witness for C1: with threshold one half, the ip column of the
fixture frame (frequency 1) is classified. -/
theorem classified_iff_some_row_exceeds_threshold_witness :
    ("cat", "db", "ta", "ip") ∈ classifiedColIds [rowA, rowC] (1 / 2) :=
  ((classified_iff_some_row_exceeds_threshold [rowA, rowC] (1 / 2) (by norm_num)
      (by norm_num) ("cat", "db", "ta", "ip")).1).mpr
    ⟨rowA, by simp, rfl, by norm_num [rowA]⟩

/-- Claim C2: given tables A, B, C where compiling or executing the
query of B raises, _execute_scan continues with the remaining tables
and the final result holds exactly the rows of A followed by the rows
of C: B contributes zero rows. -/
theorem failed_table_contributes_no_rows (env : ScanEnv) (A B C : TableInfo)
    (rule_list : List Rule) (sample_size : Option Nat) (rowsA rowsC : List ScanRow)
    (hB : (∃ e, env.compile B rule_list sample_size = .error e) ∨
      (∃ sql e, env.compile B rule_list sample_size = .ok sql ∧ env.run sql = .error e))
    (hA : tableFrame env rule_list sample_size false A = some rowsA)
    (hC : tableFrame env rule_list sample_size false C = some rowsC) :
    execute_scan env [A, B, C] rule_list sample_size false =
      Frame.scanFrame (rowsA ++ rowsC) := by
  have hBf : tableFrame env rule_list sample_size false B = none := by
    rcases hB with ⟨e, he⟩ | ⟨sql, e, hok, herr⟩
    · simp [tableFrame, scanStep, he]
    · simp [tableFrame, scanStep, hok, herr]
  rw [execute_scan_eq_filterMap]
  simp [List.filterMap_cons, hA, hBf, hC]

/-- Witness for C2: in the fixture environment tblB fails to compile
and the scan of tblA, tblB, tblC yields the rows of tblA and tblC. -/
theorem failed_table_contributes_no_rows_witness :
    execute_scan envW [tblA, tblB, tblC] [] none false =
      Frame.scanFrame ([rowA] ++ [rowC]) :=
  failed_table_contributes_no_rows envW tblA tblB tblC [] none [rowA] [rowC]
    (Or.inl ⟨PyError.valueError "bad rule sql", by rfl⟩) (by rfl) (by rfl)

/-- Claim C3: constructing a DX instance with a threshold strictly
below 0 or strictly above 1 raises ValueError at configuration time,
while any threshold in the closed interval, endpoints included, is
accepted and stored unchanged. -/
theorem threshold_validated_at_init (t : ℚ) :
    ((t < 0 ∨ 1 < t) → ∃ msg, DX.init t = .error (.valueError msg)) ∧
    (0 ≤ t → t ≤ 1 →
      DX.init t = .ok { column_type_classification_threshold := t, scan_result := none }) := by
  constructor
  · intro h
    refine ⟨"column_type_classification_threshold has to be in interval [0,1]. Given value is "
      ++ toString t, ?_⟩
    unfold DX.init validate_classification_threshold
    rw [if_pos h]
  · intro h0 h1
    have hn : ¬ (t < 0 ∨ t > 1) := by
      push_neg
      exact ⟨h0, h1⟩
    unfold DX.init validate_classification_threshold
    rw [if_neg hn]

/-- Witness for C3: the endpoints 0 and 1 are accepted and stored
unchanged; the out-of-range value 2 is rejected. -/
theorem threshold_validated_at_init_witness :
    DX.init 0 = .ok { column_type_classification_threshold := 0, scan_result := none } ∧
    DX.init 1 = .ok { column_type_classification_threshold := 1, scan_result := none } ∧
    ∃ msg, DX.init 2 = .error (.valueError msg) :=
  ⟨(threshold_validated_at_init 0).2 le_rfl zero_le_one,
    (threshold_validated_at_init 1).2 zero_le_one le_rfl,
    (threshold_validated_at_init 2).1 (Or.inr one_lt_two)⟩

/-- Claim C4 (divergence): when zero tables match, or every matched
table scan fails, _execute_scan returns the schemaless empty frame,
and the subsequent _display_scan_summary raises KeyError selecting the
missing frequency column, so scan() raises instead of completing with
the informational summary the claim describes. -/
theorem empty_scan_summary_raises_keyerror (env : ScanEnv) (table_list : List TableInfo)
    (rule_list : List Rule) (sample_size : Option Nat) (threshold : ℚ)
    (h : table_list = [] ∨
      ∀ t ∈ table_list, tableFrame env rule_list sample_size false t = none) :
    execute_scan env table_list rule_list sample_size false = Frame.empty ∧
    scan_model env table_list rule_list sample_size false threshold =
      .error (.keyError "frequency") := by
  have hnil : table_list.filterMap (tableFrame env rule_list sample_size false) = [] := by
    rcases h with rfl | h
    · rfl
    · exact List.filterMap_eq_nil_iff.mpr h
  have hes : execute_scan env table_list rule_list sample_size false = Frame.empty := by
    rw [execute_scan_eq_filterMap, hnil]
  refine ⟨hes, ?_⟩
  simp [scan_model, hes, display_scan_summary]

/-- Witness for C4: scanning an empty table list raises KeyError in
the summary. -/
theorem empty_scan_summary_raises_keyerror_witness :
    scan_model envW [] [] none false (19 / 20) = .error (.keyError "frequency") :=
  (empty_scan_summary_raises_keyerror envW [] [] none (19 / 20) (Or.inl rfl)).2

/-- Claim C5: _execute_scan with what_if false returns exactly the
concatenation, in the order the tables were given, of the frames of
the tables whose compile and execute succeeded, rows verbatim; when no
table yields a frame the result is the empty frame, and the rows of
the result are always the concatenation of the successful frames. -/
theorem execute_scan_concatenates_successes (env : ScanEnv) (table_list : List TableInfo)
    (rule_list : List Rule) (sample_size : Option Nat) :
    execute_scan env table_list rule_list sample_size false =
      (match successFrames env table_list rule_list sample_size with
        | [] => Frame.empty
        | dfs => Frame.scanFrame dfs.flatten) ∧
    (execute_scan env table_list rule_list sample_size false).rows =
      (successFrames env table_list rule_list sample_size).flatten := by
  have hs : successFrames env table_list rule_list sample_size
      = table_list.filterMap (tableFrame env rule_list sample_size false) := rfl
  rw [hs]
  refine ⟨execute_scan_eq_filterMap env table_list rule_list sample_size false, ?_⟩
  rw [execute_scan_eq_filterMap]
  cases h2 : table_list.filterMap (tableFrame env rule_list sample_size false) with
  | nil => simp [Frame.rows]
  | cons a l => simp [Frame.rows]

/-- Claim C6 (divergence): after a scan, msql never reaches per-table
compilation: evaluating (not self.scan_result) on the stored DataFrame
raises ValueError, so no UNION ALL query is built or executed (and
past that guard the comprehension would raise NameError, the
table_list assignment being commented out). -/
theorem msql_after_scan_raises_valueerror (f : Frame) (template : String) (wi : Bool) :
    msql_model (some f) template wi =
      ([], .error (.valueError "The truth value of a DataFrame is ambiguous")) := rfl

/-- Claim C7: a dry run of _execute_scan submits no query to the
engine, logs a progress event with one-based index over total for the
table at every position, echoes the compiled query text of every table
whose compilation succeeds, and accumulates no rows: the result stays
the empty frame. -/
theorem dry_run_reports_without_executing (env : ScanEnv) (table_list : List TableInfo)
    (rule_list : List Rule) (sample_size : Option Nat) :
    submittedQueries env table_list rule_list sample_size true = [] ∧
    execute_scan env table_list rule_list sample_size true = Frame.empty ∧
    (∀ j (h : j < table_list.length),
      LogEvent.progress true (table_list.get ⟨j, h⟩) (j + 1) table_list.length ∈
        scanLogs env table_list rule_list sample_size true) ∧
    (∀ t ∈ table_list, ∀ sql, env.compile t rule_list sample_size = .ok sql →
      LogEvent.queryText sql ∈ scanLogs env table_list rule_list sample_size true) := by
  refine ⟨?_, ?_, ?_, ?_⟩
  · exact scanLoop_submitted_dry env rule_list sample_size table_list.length table_list 0
  · simp only [execute_scan]
    rw [scanLoop_frames_dry]
  · intro j h
    have hm := scanLoop_progress_mem env rule_list sample_size true table_list.length
      table_list 0 j h
    simpa [scanLogs] using hm
  · intro t ht sql hc
    exact scanLoop_queryText_mem env rule_list sample_size table_list.length table_list 0
      t sql ht hc

/-- Witness for C7: dry run over the single fixture table submits
nothing, logs progress 1 of 1 and echoes the compiled query. -/
theorem dry_run_reports_without_executing_witness :
    submittedQueries envW [tblA] [] none true = [] ∧
    LogEvent.progress true tblA 1 1 ∈ scanLogs envW [tblA] [] none true ∧
    LogEvent.queryText "ta" ∈ scanLogs envW [tblA] [] none true := by
  obtain ⟨h1, h2, h3, h4⟩ := dry_run_reports_without_executing envW [tblA] [] none
  refine ⟨h1, ?_, ?_⟩
  · simpa using h3 0 (by decide)
  · exact h4 tblA (by simp) "ta" (by rfl)

/-- Claim C8: the scan summary reports n_scanned as the number of
distinct (catalog, database, table, column) tuples of the scan result,
n_classified as the number of such distinct tuples among the rows
exceeding the threshold, and, on scan results with no duplicate
(column identity, rule) pair, the per-rule group count equals the
number of distinct classified columns carrying that rule. -/
theorem summary_counts_distinct_columns (df : List ScanRow) (t : ℚ)
    (hnd : (df.map (fun r => (colId r, r.rule_name))).Nodup) :
    (summarize df t).n_scanned = (df.map colId).toFinset.card ∧
    (summarize df t).n_classified = ((classifiedCols df t).map colId).toFinset.card ∧
    ∀ rn, perRuleCount df t rn =
      (((classifiedCols df t).filter (fun r => decide (r.rule_name = rn))).map
        colId).toFinset.card := by
  refine ⟨dedup_length_eq_card _, dedup_length_eq_card _, ?_⟩
  intro rn
  set sub := (classifiedCols df t).filter (fun r => decide (r.rule_name = rn)) with hsub
  have hsubl : List.Sublist sub df := by
    have h1 : List.Sublist sub (classifiedCols df t) := List.filter_sublist _
    have h2 : List.Sublist (classifiedCols df t) df := by
      simp only [classifiedCols]
      exact List.filter_sublist _
    exact h1.trans h2
  have hkey : (sub.map (fun r => (colId r, r.rule_name))).Nodup :=
    hnd.sublist (hsubl.map _)
  have hconst : ∀ p ∈ sub.map (fun r => (colId r, r.rule_name)), p.2 = rn := by
    intro p hp
    obtain ⟨r, hr, rfl⟩ := List.mem_map.mp hp
    have hq := (List.mem_filter.mp hr).2
    simpa using hq
  have hfst : ((sub.map (fun r => (colId r, r.rule_name))).map Prod.fst).Nodup :=
    nodup_map_fst_of_const_snd _ rn hconst hkey
  rw [List.map_map] at hfst
  have hcard : (sub.map colId).toFinset.card = (sub.map colId).length :=
    List.toFinset_card_of_nodup hfst
  rw [hcard, List.length_map]
  rfl

/-- Witness for C8 on the duplicate-free fixture frame. -/
theorem summary_counts_distinct_columns_witness :
    (summarize [rowA, rowC] (1 / 2)).n_scanned =
      (([rowA, rowC]).map colId).toFinset.card :=
  (summary_counts_distinct_columns [rowA, rowC] (1 / 2) (by decide)).1

/-- Claim C9: two runs of _execute_scan over the same table list, rule
list and sample size against engines that compile and answer every
query identically produce identical scan results. -/
theorem scan_deterministic (env₁ env₂ : ScanEnv) (table_list : List TableInfo)
    (rule_list : List Rule) (sample_size : Option Nat) (what_if : Bool)
    (hc : ∀ t, env₁.compile t rule_list sample_size = env₂.compile t rule_list sample_size)
    (hr : ∀ sql, env₁.run sql = env₂.run sql) :
    execute_scan env₁ table_list rule_list sample_size what_if =
      execute_scan env₂ table_list rule_list sample_size what_if := by
  simp only [execute_scan]
  rw [scanLoop_congr env₁ env₂ rule_list sample_size what_if table_list.length
    table_list 0 hc hr]

/-- Witness for C9: the fixture environment and its extensionally
equal twin produce the same scan result. -/
theorem scan_deterministic_witness :
    execute_scan envW [tblA, tblB, tblC] [] none false =
      execute_scan envW' [tblA, tblB, tblC] [] none false :=
  scan_deterministic envW envW' [tblA, tblB, tblC] [] none false
    (fun t => rfl) (fun sql => rfl)

/-- Claim C10: on a freshly initialised DX instance on which scan was
never invoked, scan_result is unset, so msql raises AttributeError at
the attribute access and never prints the guidance message. -/
theorem msql_before_scan_raises_attribute_error (threshold : ℚ) (st : DXState)
    (h : DX.init threshold = .ok st) (template : String) (wi : Bool) :
    st.scan_result = none ∧
    msql_model st.scan_result template wi =
      ([], .error (.attributeError "scan_result")) ∧
    LogEvent.msqlGuidance ∉ (msql_model st.scan_result template wi).1 := by
  have hs : st.scan_result = none := by
    cases hv : validate_classification_threshold threshold with
    | error e =>
      simp [DX.init, hv] at h
    | ok t =>
      simp only [DX.init, hv, Except.ok.injEq] at h
      rw [← h]
  refine ⟨hs, ?_, ?_⟩
  · rw [hs]
    rfl
  · rw [hs]
    simp [msql_model]

/-- Witness for C10: msql on the state produced by initialising with
threshold 19 / 20 raises AttributeError with no log output. -/
theorem msql_before_scan_raises_attribute_error_witness :
    msql_model (DXState.mk (19 / 20) none).scan_result "SELECT [ip] FROM *" false =
      ([], .error (.attributeError "scan_result")) :=
  (msql_before_scan_raises_attribute_error (19 / 20) (DXState.mk (19 / 20) none)
    (by norm_num [DX.init, validate_classification_threshold]) "SELECT [ip] FROM *" false).2.1

end DiscoverX
